import Mathlib

/-!
Shallow embedding of `azure_monitor/python_logger_opencensus_azure/monitoring/src/logger.py`.

The module wraps the OpenCensus Azure SDK: a metaclass singleton
(`SingletonLoggerFactory`), a `logging.Filter` subclass
(`CustomDimensionsFilter`) and the `AppLogger` wrapper with its
configuration dictionary, cached instrumentation key, shared
`AzureLogHandler`, trace exporter and tracer construction.

Modelling conventions:
* Python dicts with string keys and string values are association lists
  (`Dict`) with Python's assignment semantics: assigning to an existing key
  overwrites its value in place, otherwise the pair is appended
  (`dictInsert`); `{**a, **b}` is `pythonMerge a b`.
* The configuration dict is read only at the keys `"log_level"`,
  `"logging_enabled"` and `"app_insights_key"`, so it is embedded as a
  structure of three `Option` fields; `dict.update` becomes a field-wise
  merge in which a key present in the update wins (`Config.update`).
* `os.getenv("APPINSIGHTS_INSTRUMENTATION_KEY")` is an explicit
  `env : Option String` argument to every operation that resolves the key.
* `opencensus.ext.azure.common.utils.validate_instrumentation_key` is SDK
  code outside this repository; operations take it as a parameter
  `validate : String → Except String Unit` (`.error e` models the SDK
  raising an exception whose string form is `e`).
* Exceptions are `Except String`; `raise Exception(s)` is `.error s`.
* Mutation of `self` is explicit state passing on `AppLoggerState`; the
  process-wide `logging` registry of named loggers is `LoggerRegistry`.
-/

/-- Python dict with string keys and string values, as an association list.
A genuine Python dict never holds a key twice; `nodupKeys` states that. -/
abbrev Dict := List (String × String)

/-- Python `d[k] = v`: overwrite the value of an existing key in place,
otherwise append the new pair. -/
def dictInsert (k v : String) : Dict → Dict
  | [] => [(k, v)]
  | (k', v') :: rest =>
    if k' = k then (k, v) :: rest else (k', v') :: dictInsert k v rest

/-- Python `d.get(k)`: value at the first occurrence of the key. -/
def dictLookup : Dict → String → Option String
  | [], _ => none
  | (k', v) :: rest, k => if k' = k then some v else dictLookup rest k

/-- Python `{**a, **b}`: start from `a`, then assign every pair of `b` in
order, so values of `b` override values of `a`. -/
def pythonMerge (a b : Dict) : Dict :=
  b.foldl (fun m kv => dictInsert kv.1 kv.2 m) a

/-- The association list holds no key twice, as a Python dict. -/
def nodupKeys (m : Dict) : Prop := (m.map Prod.fst).Nodup

instance (m : Dict) : Decidable (nodupKeys m) := by
  unfold nodupKeys; infer_instance

theorem dictLookup_insert (k v : String) (m : Dict) (q : String) :
    dictLookup (dictInsert k v m) q =
      if k = q then some v else dictLookup m q := by
  induction m with
  | nil =>
    by_cases h : k = q <;> simp [dictInsert, dictLookup, h]
  | cons hd tl ih =>
    obtain ⟨k', v'⟩ := hd
    by_cases h1 : k' = k
    · subst h1
      by_cases h2 : k' = q <;> simp [dictInsert, dictLookup, h2]
    · by_cases h2 : k' = q
      · subst h2
        have hk : ¬ k = k' := fun h => h1 h.symm
        simp [dictInsert, dictLookup, h1, hk]
      · simp [dictInsert, dictLookup, h1, h2, ih]

theorem dictLookup_eq_none_of_not_mem (m : Dict) (k : String)
    (h : k ∉ m.map Prod.fst) : dictLookup m k = none := by
  induction m with
  | nil => rfl
  | cons hd tl ih =>
    obtain ⟨k', v'⟩ := hd
    simp only [List.map_cons, List.mem_cons] at h
    push_neg at h
    have hne : ¬ k' = k := fun hh => h.1 hh.symm
    simp [dictLookup, hne, ih h.2]

theorem dictLookup_pythonMerge (a b : Dict) (k : String) (hb : nodupKeys b) :
    dictLookup (pythonMerge a b) k =
      match dictLookup b k with
      | some v => some v
      | none => dictLookup a k := by
  induction b generalizing a with
  | nil => simp [pythonMerge, dictLookup]
  | cons hd tl ih =>
    obtain ⟨k₀, v₀⟩ := hd
    have hcons : (k₀ :: tl.map Prod.fst).Nodup := by
      simpa [nodupKeys] using hb
    have hb' : nodupKeys tl := (List.nodup_cons.mp hcons).2
    have hmerge : pythonMerge a ((k₀, v₀) :: tl) =
        pythonMerge (dictInsert k₀ v₀ a) tl := rfl
    rw [hmerge, ih _ hb']
    by_cases hk : k₀ = k
    · subst hk
      have hnot : k₀ ∉ tl.map Prod.fst := (List.nodup_cons.mp hcons).1
      rw [dictLookup_eq_none_of_not_mem tl k₀ hnot]
      simp [dictLookup, dictLookup_insert]
    · simp [dictLookup, hk, dictLookup_insert]

/-- The logger configuration dict, read at exactly three keys:
`{"log_level": ..., "logging_enabled": ..., "app_insights_key": ...}`.
A `none` field is an absent key. `log_level` is carried as the stdlib
numeric level (`logging.INFO = 20` is the default). -/
structure Config where
  log_level : Option Nat
  logging_enabled : Option String
  app_insights_key : Option String
deriving DecidableEq, Repr

/-- Python `self.config.update(config)`: a key present in the update dict
overwrites the current value, an absent key leaves it unchanged. -/
def Config.update (c u : Config) : Config where
  log_level := match u.log_level with
    | some v => some v
    | none => c.log_level
  logging_enabled := match u.logging_enabled with
    | some v => some v
    | none => c.logging_enabled
  app_insights_key := match u.app_insights_key with
    | some v => some v
    | none => c.app_insights_key

/-- The defaults set in `AppLogger.__init__`:
`{"log_level": logging.INFO, "logging_enabled": "true"}`. -/
def defaultConfig : Config :=
  { log_level := some 20, logging_enabled := some "true", app_insights_key := none }

/-- The `CustomDimensionsFilter` object: a `logging.Filter` holding the
default custom dimensions captured at construction. -/
structure CustomDimensionsFilter where
  custom_dimensions : Dict
deriving DecidableEq, Repr

/-- `CustomDimensionsFilter.__init__(custom_dimensions=None)`:
`self.custom_dimensions = custom_dimensions or {}`. -/
def CustomDimensionsFilter.init (custom_dimensions : Option Dict) : CustomDimensionsFilter :=
  { custom_dimensions := custom_dimensions.getD [] }

/-- A `logging.LogRecord`: the `custom_dimensions` attribute (absent until
some filter or caller sets it) and every other attribute of the record,
abstracted as `rest`. -/
structure LogRecord (α : Type) where
  custom_dimensions : Option Dict
  rest : α
deriving DecidableEq, Repr

/-- `CustomDimensionsFilter.filter(record)`:
`record.custom_dimensions = {**self.custom_dimensions, **getattr(record, "custom_dimensions", {})}`
then `return True`. -/
def CustomDimensionsFilter.filter (f : CustomDimensionsFilter) (r : LogRecord α) :
    Bool × LogRecord α :=
  let dim := pythonMerge f.custom_dimensions (r.custom_dimensions.getD [])
  (true, { r with custom_dimensions := some dim })

/-- Stdlib `logging.Filterer.filter` semantics for a handler whose filters
are `CustomDimensionsFilter`s: run each filter in order on the record,
stopping (and dropping the record) as soon as one returns false. -/
def runFilters (fs : List CustomDimensionsFilter) (r : LogRecord α) :
    Bool × LogRecord α :=
  match fs with
  | [] => (true, r)
  | f :: rest =>
    let p := f.filter r
    if p.1 then runFilters rest p.2 else (false, p.2)

/-- `SingletonLoggerFactory.__call__`: the metaclass keeps one instance per
class in `_instances`; for the single `AppLogger` class this is an
`Option I`. Construction (`mk`) may raise, in which case nothing is
stored. -/
def SingletonLoggerFactory.call {I A E : Type} (mk : A → Except E I)
    (instances : Option I) (a : A) : Except E I × Option I :=
  match instances with
  | some i => (.ok i, some i)
  | none =>
    match mk a with
    | .ok i => (.ok i, some i)
    | .error e => (.error e, none)

/-- A telemetry envelope: the `tags` dict plus every other field,
abstracted as `rest`. -/
structure Envelope (α : Type) where
  tags : Dict
  rest : α
deriving DecidableEq, Repr

/-- An outgoing-telemetry sampler; `probability` stands for
`ProbabilitySampler(1.0)` used on the trace exporter. -/
inductive Sampler where
  | alwaysOn
  | alwaysOff
  | probability
deriving DecidableEq, Repr

/-- The `AzureLogHandler` owned by the singleton: its `name`, connection
string, and the mutable lists grown by `addFilter` and
`add_telemetry_processor`. A telemetry-processor callback produced by
`AppLogger._get_callback(component_name)` is represented by the
`component_name` it captured. -/
structure Handler where
  name : String
  connection_string : String
  filters : List CustomDimensionsFilter
  processors : List String
deriving DecidableEq, Repr

/-- The `AzureExporter` built by `_get_trace_exporter`. -/
structure AzureExporter where
  connection_string : String
  sampler : Sampler
  processors : List String
deriving DecidableEq, Repr

/-- An `opencensus` `Tracer`; `span_context = none` means the SDK generated
a fresh context, `some c` that the context `c` was taken from a parent
tracer. -/
structure Tracer where
  sampler : Sampler
  exporter : AzureExporter
  span_context : Option String
deriving DecidableEq, Repr

/-- The attributes of the `AppLogger` singleton instance. -/
structure AppLoggerState where
  config : Config
  app_insights_key : Option String
  log_level : Option Nat
  handler : Handler
deriving DecidableEq, Repr

/-- `AppLogger.HANDLER_NAME`. -/
def HANDLER_NAME : String := "Azure Application Insights Handler"

/-- A named logger in the stdlib registry: its level (`none` is the fresh
`NOTSET` state) and the names of its attached handlers. -/
structure LoggerObj where
  level : Option Nat
  handlers : List String
deriving DecidableEq, Repr

/-- The process-wide `logging` registry of named loggers. -/
abbrev LoggerRegistry := List (String × LoggerObj)

/-- `logging.getLogger(name)`: the registered logger, or a fresh one. -/
def getLoggerObj (reg : LoggerRegistry) (name : String) : LoggerObj :=
  match reg with
  | [] => { level := none, handlers := [] }
  | (n, lg) :: rest => if n = name then lg else getLoggerObj rest name

/-- Store a logger back into the registry under its name. -/
def setLoggerObj (reg : LoggerRegistry) (name : String) (lg : LoggerObj) :
    LoggerRegistry :=
  match reg with
  | [] => [(name, lg)]
  | (n, lg') :: rest =>
    if n = name then (name, lg) :: rest else (n, lg') :: setLoggerObj rest name lg

namespace AppLogger

/-- `AppLogger._get_app_insights_key(self)`, acting on the cached
`self.app_insights_key` attribute. Inside a `try` block: if the cached key
is `None` it is re-read from the `APPINSIGHTS_INSTRUMENTATION_KEY`
environment variable; a still-absent key raises
`"ApplicationInsights Key is not set"`; a present key is validated by the
SDK and returned. Any exception in the block (including the raise above and
a validation failure) is caught and re-raised as
`Exception(f"Exception is getting app insights key-> \x7bexp\x7d")`.
Returns the key together with the updated cached attribute. -/
def get_app_insights_key (validate : String → Except String Unit)
    (cached env : Option String) : Except String (String × Option String) :=
  let cached := match cached with
    | none => env
    | some k => some k
  match cached with
  | some k =>
    match validate k with
    | .ok _ => .ok (k, cached)
    | .error e => .error ("Exception is getting app insights key-> " ++ e)
  | none =>
    .error ("Exception is getting app insights key-> " ++ "ApplicationInsights Key is not set")

/-- `AppLogger._initialize_azure_log_handler(self)`: resolves the key,
builds the connection string `"InstrumentationKey=" + key` and an
`AzureLogHandler` on it, then names the handler `HANDLER_NAME`. The
handler starts with no filters and no telemetry processors. -/
def initialize_azure_log_handler (validate : String → Except String Unit)
    (cached env : Option String) : Except String (Handler × Option String) :=
  match get_app_insights_key validate cached env with
  | .error e => .error e
  | .ok (k, cached) =>
    .ok ({ name := HANDLER_NAME,
           connection_string := "InstrumentationKey=" ++ k,
           filters := [], processors := [] }, cached)

/-- `AppLogger.update_config(self, config=None)`: merge the supplied dict
into `self.config`, then re-derive `self.app_insights_key` and
`self.log_level` from the merged configuration. -/
def update_config (s : AppLoggerState) (config : Option Config) : AppLoggerState :=
  let cfg := match config with
    | none => s.config
    | some c => s.config.update c
  { s with config := cfg,
           app_insights_key := cfg.app_insights_key,
           log_level := cfg.log_level }

/-- `AppLogger.__init__(self, config=None)`: start from the default
configuration, merge the caller's config (`update_config`), then build the
shared Azure log handler (which resolves and caches the key, and may
raise). -/
def init (validate : String → Except String Unit) (config : Option Config)
    (env : Option String) : Except String AppLoggerState :=
  let cfg := match config with
    | none => defaultConfig
    | some c => defaultConfig.update c
  match initialize_azure_log_handler validate cfg.app_insights_key env with
  | .error e => .error e
  | .ok (h, cached) =>
    .ok { config := cfg, app_insights_key := cached,
          log_level := cfg.log_level, handler := h }

/-- `AppLogger._get_callback(self, component_name)`: returns the closure
`_callback_add_role_name(envelope)` that assigns
`envelope.tags["ai.cloud.role"]` and then
`envelope.tags["ai.cloud.roleInstance"]` to the captured component name. -/
def get_callback (component_name : String) : Envelope α → Envelope α :=
  fun envelope =>
    { envelope with
        tags := dictInsert "ai.cloud.roleInstance" component_name
          (dictInsert "ai.cloud.role" component_name envelope.tags) }

/-- `AppLogger._get_trace_exporter(self, component_name="AppLogger")`:
resolves the key, builds an `AzureExporter` on the connection string with
`ProbabilitySampler(1.0)`, and adds the role-name telemetry processor for
the component. -/
def get_trace_exporter (validate : String → Except String Unit)
    (s : AppLoggerState) (component_name : String) (env : Option String) :
    Except String (AzureExporter × AppLoggerState) :=
  match get_app_insights_key validate s.app_insights_key env with
  | .error e => .error e
  | .ok (k, cached) =>
    .ok ({ connection_string := "InstrumentationKey=" ++ k,
           sampler := .probability,
           processors := [component_name] },
         { s with app_insights_key := cached })

/-- `AppLogger._initialize_logger(self, component_name, custom_dimensions)`:
fetch the named logger, set its level to `self.log_level`; when
`config.get("logging_enabled") == "true"` and no handler named
`HANDLER_NAME` is attached, attach the shared handler. Then (always) add a
fresh `CustomDimensionsFilter(custom_dimensions)` and the component's
role-name telemetry processor to the shared handler. -/
def initialize_logger (s : AppLoggerState) (reg : LoggerRegistry)
    (component_name : String) (custom_dimensions : Dict) :
    AppLoggerState × LoggerRegistry :=
  let lg := getLoggerObj reg component_name
  let lg := { lg with level := s.log_level }
  let lg :=
    if s.config.logging_enabled = some "true" then
      if HANDLER_NAME ∈ lg.handlers then lg
      else { lg with handlers := lg.handlers ++ [HANDLER_NAME] }
    else lg
  let h := { s.handler with
               filters := s.handler.filters ++
                 [CustomDimensionsFilter.init (some custom_dimensions)],
               processors := s.handler.processors ++ [component_name] }
  ({ s with handler := h }, setLoggerObj reg component_name lg)

/-- `AppLogger.get_logger(self, component_name="AppLogger", custom_dimensions={})`:
re-runs `update_config` on the current configuration, then
`_initialize_logger`; the returned logger is the registry entry for
`component_name`. -/
def get_logger (s : AppLoggerState) (reg : LoggerRegistry)
    (component_name : String) (custom_dimensions : Dict) :
    AppLoggerState × LoggerRegistry :=
  let s := update_config s (some s.config)
  initialize_logger s reg component_name custom_dimensions

/-- `AppLogger.get_tracer(self, component_name="AppLogger", parent_tracer=None)`:
re-runs `update_config`, picks `AlwaysOnSampler`, builds the trace
exporter, switches to `AlwaysOffSampler` when
`config.get("logging_enabled") != "true"`, and builds the tracer (with the
parent's span context when a parent tracer is supplied). -/
def get_tracer (validate : String → Except String Unit) (s : AppLoggerState)
    (component_name : String) (parent_tracer : Option Tracer)
    (env : Option String) : Except String (Tracer × AppLoggerState) :=
  let s := update_config s (some s.config)
  let sampler := Sampler.alwaysOn
  match get_trace_exporter validate s component_name env with
  | .error e => .error e
  | .ok (exporter, s) =>
    let sampler := if s.config.logging_enabled ≠ some "true" then Sampler.alwaysOff else sampler
    match parent_tracer with
    | none => .ok ({ sampler := sampler, exporter := exporter, span_context := none }, s)
    | some p => .ok ({ sampler := sampler, exporter := exporter, span_context := p.span_context }, s)

end AppLogger

theorem Config.update_self (c : Config) : c.update c = c := by
  obtain ⟨l, e, k⟩ := c
  simp only [Config.update]
  cases l <;> cases e <;> cases k <;> rfl

theorem update_config_self (s : AppLoggerState) :
    AppLogger.update_config s (some s.config) =
      { s with app_insights_key := s.config.app_insights_key,
               log_level := s.config.log_level } := by
  simp only [AppLogger.update_config, Config.update_self]

theorem getLoggerObj_setLoggerObj_same (reg : LoggerRegistry) (name : String)
    (lg : LoggerObj) : getLoggerObj (setLoggerObj reg name lg) name = lg := by
  induction reg with
  | nil => simp [getLoggerObj, setLoggerObj]
  | cons hd tl ih =>
    obtain ⟨n, lg'⟩ := hd
    by_cases h : n = name <;> simp [getLoggerObj, setLoggerObj, h, ih]

/-- C2: two successive calls of the `AppLogger` factory
(`SingletonLoggerFactory.__call__`) return the identical stored instance:
once the first call has constructed and stored an instance, any later call
with any arguments returns that same instance and leaves the store
unchanged. -/
theorem C2_singleton_identity {I A E : Type} (mk : A → Except E I)
    (a₁ a₂ : A) (i : I) (st : Option I)
    (h : SingletonLoggerFactory.call mk none a₁ = (.ok i, st)) :
    st = some i ∧ SingletonLoggerFactory.call mk st a₂ = (.ok i, st) := by
  unfold SingletonLoggerFactory.call at h
  cases hm : mk a₁ with
  | ok j =>
    rw [hm] at h
    obtain ⟨h1, h2⟩ := Prod.mk.injEq .. ▸ h
    cases h1
    cases h2
    exact ⟨rfl, rfl⟩
  | error e =>
    rw [hm] at h
    cases h

/-- C2 witness: a concrete constructor, first call stores the instance,
second call (with a different argument) returns the identical one. -/
theorem C2_singleton_identity_witness :
    (some 6 : Option Nat) = some 6 ∧
      SingletonLoggerFactory.call
        (fun n : Nat => (Except.ok (n + 1) : Except String Nat))
        (some 6) 42 = (.ok 6, some 6) :=
  C2_singleton_identity (fun n : Nat => (Except.ok (n + 1) : Except String Nat))
    5 42 6 (some 6) rfl

/-- C8: the tag-stamping callback returned by
`AppLogger._get_callback(component_name)` sets the two tags
`"ai.cloud.role"` and `"ai.cloud.roleInstance"` of the envelope to the
component name, leaves every other tag unchanged, and leaves every other
field of the envelope unchanged. -/
theorem C8_callback_stamps_role_tags {α : Type} (component_name : String)
    (e : Envelope α) (k : String) :
    dictLookup (AppLogger.get_callback component_name e).tags "ai.cloud.role" =
        some component_name ∧
    dictLookup (AppLogger.get_callback component_name e).tags "ai.cloud.roleInstance" =
        some component_name ∧
    (k ≠ "ai.cloud.role" → k ≠ "ai.cloud.roleInstance" →
      dictLookup (AppLogger.get_callback component_name e).tags k =
        dictLookup e.tags k) ∧
    (AppLogger.get_callback component_name e).rest = e.rest := by
  refine ⟨?_, ?_, fun h1 h2 => ?_, rfl⟩
  · simp [AppLogger.get_callback, dictLookup_insert]
  · simp [AppLogger.get_callback, dictLookup_insert]
  · simp [AppLogger.get_callback, dictLookup_insert, Ne.symm h1, Ne.symm h2]

/-- C8 witness: the callback for component `"svc"` on a concrete envelope
stamps both role tags, keeps the unrelated tag `"x"`, and keeps the rest of
the envelope. -/
theorem C8_callback_stamps_role_tags_witness :
    dictLookup (AppLogger.get_callback "svc"
        ({ tags := [("x", "1")], rest := (0 : Nat) } : Envelope Nat)).tags
        "ai.cloud.role" = some "svc" ∧
    dictLookup (AppLogger.get_callback "svc"
        ({ tags := [("x", "1")], rest := (0 : Nat) } : Envelope Nat)).tags
        "ai.cloud.roleInstance" = some "svc" ∧
    dictLookup (AppLogger.get_callback "svc"
        ({ tags := [("x", "1")], rest := (0 : Nat) } : Envelope Nat)).tags "x" =
      dictLookup ({ tags := [("x", "1")], rest := (0 : Nat) } : Envelope Nat).tags "x" ∧
    (AppLogger.get_callback "svc"
        ({ tags := [("x", "1")], rest := (0 : Nat) } : Envelope Nat)).rest =
      ({ tags := [("x", "1")], rest := (0 : Nat) } : Envelope Nat).rest := by
  have h := C8_callback_stamps_role_tags "svc"
    ({ tags := [("x", "1")], rest := (0 : Nat) } : Envelope Nat) "x"
  exact ⟨h.1, h.2.1, h.2.2.1 (by decide) (by decide), h.2.2.2⟩

/-- A demonstration validator: rejects the key `"bad"` the way the SDK
rejects a malformed instrumentation key, accepts everything else. -/
def vDemo : String → Except String Unit :=
  fun k => if k = "bad" then .error "Invalid instrumentation key." else .ok ()

/-- A validator that accepts every key. -/
def vAll : String → Except String Unit := fun _ => .ok ()

/-- A concrete handler for witness states. -/
def demoHandler : Handler :=
  { name := HANDLER_NAME, connection_string := "InstrumentationKey=k",
    filters := [], processors := [] }

/-- A concrete `AppLogger` state whose configuration and cache hold no
instrumentation key. -/
def demoState : AppLoggerState :=
  { config := defaultConfig, app_insights_key := none,
    log_level := some 20, handler := demoHandler }

/-- C1: with no `app_insights_key` in the configuration and the
`APPINSIGHTS_INSTRUMENTATION_KEY` environment variable unset, credential
resolution fails with the wrapped unset-credential error; so do
`AppLogger.__init__` (handler construction) and `_get_trace_exporter`
(exporter construction); and any exception raised during key retrieval
(here: a validation failure) is re-raised wrapped with the added context
prefix. -/
theorem C1_missing_credential_raises (validate : String → Except String Unit)
    (cfg : Config) (hc : cfg.app_insights_key = none) :
    AppLogger.get_app_insights_key validate none none =
      .error "Exception is getting app insights key-> ApplicationInsights Key is not set" ∧
    AppLogger.init validate (some cfg) none =
      .error "Exception is getting app insights key-> ApplicationInsights Key is not set" ∧
    (∀ s : AppLoggerState, ∀ name : String, s.app_insights_key = none →
      AppLogger.get_trace_exporter validate s name none =
        .error "Exception is getting app insights key-> ApplicationInsights Key is not set") ∧
    (∀ k e : String, ∀ env : Option String, validate k = .error e →
      AppLogger.get_app_insights_key validate (some k) env =
        .error ("Exception is getting app insights key-> " ++ e)) := by
  refine ⟨rfl, ?_, fun s name hs => ?_, fun k e env hv => ?_⟩
  · simp [AppLogger.init, AppLogger.initialize_azure_log_handler,
      AppLogger.get_app_insights_key, Config.update, defaultConfig, hc]
  · simp [AppLogger.get_trace_exporter, AppLogger.get_app_insights_key, hs]
  · simp [AppLogger.get_app_insights_key, hv]

/-- C1 witness: the unset-credential error at concrete inputs, and the
wrapping of a concrete validation failure for the key `"bad"`. -/
theorem C1_missing_credential_raises_witness :
    AppLogger.get_app_insights_key vDemo none none =
      .error "Exception is getting app insights key-> ApplicationInsights Key is not set" ∧
    AppLogger.init vDemo
        (some { log_level := none, logging_enabled := none, app_insights_key := none }) none =
      .error "Exception is getting app insights key-> ApplicationInsights Key is not set" ∧
    AppLogger.get_trace_exporter vDemo demoState "AppLogger" none =
      .error "Exception is getting app insights key-> ApplicationInsights Key is not set" ∧
    AppLogger.get_app_insights_key vDemo (some "bad") (some "whatever") =
      .error ("Exception is getting app insights key-> " ++ "Invalid instrumentation key.") := by
  have h := C1_missing_credential_raises vDemo
    { log_level := none, logging_enabled := none, app_insights_key := none } rfl
  exact ⟨h.1, h.2.1, h.2.2.1 demoState "AppLogger" rfl,
    h.2.2.2 "bad" "Invalid instrumentation key." (some "whatever") (by simp [vDemo])⟩

/-- C6: when the configuration carries `app_insights_key`, `update_config`
caches exactly that value and `_get_app_insights_key` returns it, whatever
the `APPINSIGHTS_INSTRUMENTATION_KEY` environment variable holds: the
result does not depend on `env`, so the environment is not consulted. -/
theorem C6_config_key_precedence (validate : String → Except String Unit)
    (s : AppLoggerState) (cfg : Config) (k : String) (env : Option String)
    (hc : cfg.app_insights_key = some k) (hv : validate k = .ok ()) :
    (AppLogger.update_config s (some cfg)).app_insights_key = some k ∧
    AppLogger.get_app_insights_key validate
        (AppLogger.update_config s (some cfg)).app_insights_key env =
      .ok (k, some k) := by
  have h1 : (AppLogger.update_config s (some cfg)).app_insights_key = some k := by
    simp [AppLogger.update_config, Config.update, hc]
  refine ⟨h1, ?_⟩
  rw [h1]
  simp [AppLogger.get_app_insights_key, hv]

/-- C6 witness: with `app_insights_key="good"` in config and the
environment variable set to `"fromenv"`, resolution returns `"good"`. -/
theorem C6_config_key_precedence_witness :
    (AppLogger.update_config demoState
        (some { log_level := none, logging_enabled := none,
                app_insights_key := some "good" })).app_insights_key = some "good" ∧
    AppLogger.get_app_insights_key vDemo
        (AppLogger.update_config demoState
          (some { log_level := none, logging_enabled := none,
                  app_insights_key := some "good" })).app_insights_key
        (some "fromenv") =
      .ok ("good", some "good") :=
  C6_config_key_precedence vDemo demoState
    { log_level := none, logging_enabled := none, app_insights_key := some "good" }
    "good" (some "fromenv") rfl (by simp [vDemo])

theorem get_tracer_eq (validate : String → Except String Unit)
    (s : AppLoggerState) (name : String) (parent : Option Tracer)
    (env : Option String) :
    AppLogger.get_tracer validate s name parent env =
      match AppLogger.get_app_insights_key validate s.config.app_insights_key env with
      | .error e => .error e
      | .ok (k, cached) =>
        .ok ({ sampler := if s.config.logging_enabled ≠ some "true"
                 then Sampler.alwaysOff else Sampler.alwaysOn,
               exporter := { connection_string := "InstrumentationKey=" ++ k,
                             sampler := Sampler.probability,
                             processors := [name] },
               span_context := match parent with
                 | none => none
                 | some p => p.span_context },
             { config := s.config, app_insights_key := cached,
               log_level := s.config.log_level, handler := s.handler }) := by
  simp only [AppLogger.get_tracer, AppLogger.get_trace_exporter, update_config_self]
  cases AppLogger.get_app_insights_key validate s.config.app_insights_key env with
  | error e => rfl
  | ok p =>
    obtain ⟨k, cached⟩ := p
    cases parent <;> rfl

/-- C3: whenever `get_tracer` returns a tracer, that tracer's sampler is
always-on exactly when `config["logging_enabled"] == "true"` and always-off
otherwise, and in either case the trace exporter has been constructed: it
carries the instrumentation-key connection string, the
`ProbabilitySampler(1.0)`, and the role-name processor for the requested
component. -/
theorem C3_tracer_sampler (validate : String → Except String Unit)
    (s : AppLoggerState) (name : String) (parent : Option Tracer)
    (env : Option String) (t : Tracer) (s' : AppLoggerState)
    (h : AppLogger.get_tracer validate s name parent env = .ok (t, s')) :
    t.sampler = (if s.config.logging_enabled = some "true"
      then Sampler.alwaysOn else Sampler.alwaysOff) ∧
    (∃ k : String, t.exporter =
      { connection_string := "InstrumentationKey=" ++ k,
        sampler := Sampler.probability, processors := [name] }) := by
  rw [get_tracer_eq] at h
  cases hg : AppLogger.get_app_insights_key validate s.config.app_insights_key env with
  | error e =>
    rw [hg] at h
    cases h
  | ok p =>
    obtain ⟨k, cached⟩ := p
    rw [hg] at h
    simp only [Except.ok.injEq, Prod.mk.injEq] at h
    obtain ⟨ht, hs'⟩ := h
    subst ht
    by_cases hcond : s.config.logging_enabled = some "true" <;> simp [hcond]

/-- A concrete state carrying `app_insights_key` in config, with
`logging_enabled` set to `"false"`. -/
def demoStateKeyed : AppLoggerState :=
  { config := { log_level := some 20, logging_enabled := some "false",
                app_insights_key := some "good" },
    app_insights_key := some "good", log_level := some 20, handler := demoHandler }

/-- The tracer `get_tracer` builds from `demoStateKeyed` for component
`"svc"`. -/
def demoTracer : Tracer :=
  { sampler := .alwaysOff,
    exporter := { connection_string := "InstrumentationKey=good",
                  sampler := .probability, processors := ["svc"] },
    span_context := none }

/-- C3 witness: with `logging_enabled="false"` the returned tracer samples
always-off while its exporter is fully constructed. -/
theorem C3_tracer_sampler_witness :
    demoTracer.sampler = (if demoStateKeyed.config.logging_enabled = some "true"
      then Sampler.alwaysOn else Sampler.alwaysOff) ∧
    (∃ k : String, demoTracer.exporter =
      { connection_string := "InstrumentationKey=" ++ k,
        sampler := Sampler.probability, processors := ["svc"] }) :=
  C3_tracer_sampler vAll demoStateKeyed "svc" none none demoTracer demoStateKeyed rfl

theorem get_logger_registry_eq (s : AppLoggerState) (reg : LoggerRegistry)
    (name : String) (d : Dict) :
    (AppLogger.get_logger s reg name d).2 =
      setLoggerObj reg name
        (let lg := getLoggerObj reg name
         let lg := { lg with level := s.config.log_level }
         if s.config.logging_enabled = some "true" then
           if HANDLER_NAME ∈ lg.handlers then lg
           else { lg with handlers := lg.handlers ++ [HANDLER_NAME] }
         else lg) := by
  simp only [AppLogger.get_logger, AppLogger.initialize_logger, update_config_self]

theorem count_handler_le_one_after_get_logger (s : AppLoggerState)
    (reg : LoggerRegistry) (name : String) (d : Dict)
    (h : ((getLoggerObj reg name).handlers.count HANDLER_NAME) ≤ 1) :
    ((getLoggerObj (AppLogger.get_logger s reg name d).2 name).handlers.count
      HANDLER_NAME) ≤ 1 := by
  rw [get_logger_registry_eq, getLoggerObj_setLoggerObj_same]
  by_cases he : s.config.logging_enabled = some "true"
  · by_cases hm : HANDLER_NAME ∈ (getLoggerObj reg name).handlers
    · simpa [he, hm] using h
    · have hz : ((getLoggerObj reg name).handlers.count HANDLER_NAME) = 0 :=
        List.count_eq_zero.mpr hm
      simp [he, hm, List.count_append, hz]
  · simpa [he] using h

/-- C4: calling `get_logger` twice with the same component name leaves the
handler named `"Azure Application Insights Handler"` attached to that
logger at most once (an existing handler is checked for by name before
adding). -/
theorem C4_no_duplicate_handler (s : AppLoggerState) (reg : LoggerRegistry)
    (name : String) (d₁ d₂ : Dict)
    (h : ((getLoggerObj reg name).handlers.count HANDLER_NAME) ≤ 1) :
    ((getLoggerObj
        (AppLogger.get_logger (AppLogger.get_logger s reg name d₁).1
          (AppLogger.get_logger s reg name d₁).2 name d₂).2
        name).handlers.count HANDLER_NAME) ≤ 1 :=
  count_handler_le_one_after_get_logger _ _ _ _
    (count_handler_le_one_after_get_logger _ _ _ _ h)

/-- C4 witness: two `get_logger("svc", ...)` calls starting from an empty
registry leave the telemetry handler attached exactly once, hence at most
once. -/
theorem C4_no_duplicate_handler_witness :
    ((getLoggerObj
        (AppLogger.get_logger (AppLogger.get_logger demoState [] "svc" []).1
          (AppLogger.get_logger demoState [] "svc" []).2 "svc" []).2
        "svc").handlers.count HANDLER_NAME) ≤ 1 :=
  C4_no_duplicate_handler demoState [] "svc" [] [] (by decide)

/-- C5: `CustomDimensionsFilter.filter` never drops a record (it returns
`True`), and the record leaves the filter carrying `custom_dimensions`
equal to the merge of the filter's defaults with the dimensions already on
the record, the record-level values overriding the defaults. -/
theorem C5_filter_merges_dimensions {α : Type} (d : Dict) (r : LogRecord α)
    (q : String) (hr : nodupKeys (r.custom_dimensions.getD [])) :
    ((CustomDimensionsFilter.init (some d)).filter r).1 = true ∧
    dictLookup
        ((((CustomDimensionsFilter.init (some d)).filter r).2).custom_dimensions.getD [])
        q =
      (match dictLookup (r.custom_dimensions.getD []) q with
       | some v => some v
       | none => dictLookup d q) :=
  ⟨rfl, dictLookup_pythonMerge d (r.custom_dimensions.getD []) q hr⟩

/-- C5 witness: with defaults `{"k": "v", "a": "b"}` and a record already
carrying `{"k": "w"}`, the record passes the filter, the record-level
`"w"` overrides the default at `"k"`, and the default at `"a"` survives. -/
theorem C5_filter_merges_dimensions_witness :
    (((CustomDimensionsFilter.init (some [("k", "v"), ("a", "b")])).filter
        ({ custom_dimensions := some [("k", "w")], rest := (0 : Nat) } : LogRecord Nat)).1 = true ∧
      dictLookup
        ((((CustomDimensionsFilter.init (some [("k", "v"), ("a", "b")])).filter
            ({ custom_dimensions := some [("k", "w")], rest := (0 : Nat) } : LogRecord Nat)).2).custom_dimensions.getD [])
        "k" = some "w") ∧
    dictLookup
        ((((CustomDimensionsFilter.init (some [("k", "v"), ("a", "b")])).filter
            ({ custom_dimensions := some [("k", "w")], rest := (0 : Nat) } : LogRecord Nat)).2).custom_dimensions.getD [])
        "a" = some "b" := by
  have h1 := C5_filter_merges_dimensions (α := Nat) [("k", "v"), ("a", "b")]
    { custom_dimensions := some [("k", "w")], rest := (0 : Nat) } "k" (by decide)
  have h2 := C5_filter_merges_dimensions (α := Nat) [("k", "v"), ("a", "b")]
    { custom_dimensions := some [("k", "w")], rest := (0 : Nat) } "a" (by decide)
  exact ⟨⟨h1.1, h1.2.trans (by decide)⟩, h2.2.trans (by decide)⟩

/-- C9: when `config["logging_enabled"]` is not `"true"`, `get_logger`
returns the named logger without attaching the telemetry handler (its
handler list is unchanged), while the logger's level is still set from the
configuration and the `CustomDimensionsFilter` and role-name processor are
still added to the shared handler. -/
theorem C9_disabled_skips_handler_attach (s : AppLoggerState)
    (reg : LoggerRegistry) (name : String) (d : Dict)
    (hdis : s.config.logging_enabled ≠ some "true") :
    (getLoggerObj (AppLogger.get_logger s reg name d).2 name).handlers =
      (getLoggerObj reg name).handlers ∧
    (getLoggerObj (AppLogger.get_logger s reg name d).2 name).level =
      s.config.log_level ∧
    (AppLogger.get_logger s reg name d).1.handler.filters =
      s.handler.filters ++ [CustomDimensionsFilter.init (some d)] ∧
    (AppLogger.get_logger s reg name d).1.handler.processors =
      s.handler.processors ++ [name] := by
  refine ⟨?_, ?_, ?_, ?_⟩
  · rw [get_logger_registry_eq, getLoggerObj_setLoggerObj_same]
    simp [hdis]
  · rw [get_logger_registry_eq, getLoggerObj_setLoggerObj_same]
    simp [hdis]
  · simp only [AppLogger.get_logger, AppLogger.initialize_logger, update_config_self]
  · simp only [AppLogger.get_logger, AppLogger.initialize_logger, update_config_self]

/-- C9 witness: with `logging_enabled="false"`, `get_logger("svc", {"k":"v"})`
on an empty registry leaves the logger's handler list empty, sets its
level, and still grows the shared handler's filter and processor lists. -/
theorem C9_disabled_skips_handler_attach_witness :
    (getLoggerObj (AppLogger.get_logger demoStateKeyed [] "svc" [("k", "v")]).2 "svc").handlers =
      (getLoggerObj [] "svc").handlers ∧
    (getLoggerObj (AppLogger.get_logger demoStateKeyed [] "svc" [("k", "v")]).2 "svc").level =
      demoStateKeyed.config.log_level ∧
    (AppLogger.get_logger demoStateKeyed [] "svc" [("k", "v")]).1.handler.filters =
      demoStateKeyed.handler.filters ++ [CustomDimensionsFilter.init (some [("k", "v")])] ∧
    (AppLogger.get_logger demoStateKeyed [] "svc" [("k", "v")]).1.handler.processors =
      demoStateKeyed.handler.processors ++ ["svc"] :=
  C9_disabled_skips_handler_attach demoStateKeyed [] "svc" [("k", "v")] (by simp [demoStateKeyed])

theorem get_logger_handler_filters (s : AppLoggerState) (reg : LoggerRegistry)
    (n : String) (d : Dict) :
    (AppLogger.get_logger s reg n d).1.handler.filters =
      s.handler.filters ++ [CustomDimensionsFilter.init (some d)] := by
  simp only [AppLogger.get_logger, AppLogger.initialize_logger, update_config_self]

theorem get_logger_handler_processors (s : AppLoggerState) (reg : LoggerRegistry)
    (n : String) (d : Dict) :
    (AppLogger.get_logger s reg n d).1.handler.processors =
      s.handler.processors ++ [n] := by
  simp only [AppLogger.get_logger, AppLogger.initialize_logger, update_config_self]

theorem runFilters_fst {α : Type} (fs : List CustomDimensionsFilter)
    (r : LogRecord α) : (runFilters fs r).1 = true := by
  induction fs generalizing r with
  | nil => rfl
  | cons f rest ih => simpa [runFilters, CustomDimensionsFilter.filter] using ih _

theorem runFilters_cons {α : Type} (f : CustomDimensionsFilter)
    (rest : List CustomDimensionsFilter) (r : LogRecord α) :
    runFilters (f :: rest) r = runFilters rest (f.filter r).2 := rfl

theorem pythonMerge_nil (a : Dict) : pythonMerge a [] = a := rfl

/-- C10: every `get_logger` call appends one fresh `CustomDimensionsFilter`
and one role-name processor to the single shared handler (so they
accumulate across calls, repeated arguments included); after two calls the
shared handler holds both filters, and a record emitted through the handler
carries the custom dimensions supplied by the first call even though the
second call came from a different component. -/
theorem C10_shared_handler_accumulates {α : Type} (s : AppLoggerState)
    (reg : LoggerRegistry) (n₁ n₂ : String) (d₁ d₂ : Dict)
    (r : LogRecord α) (q v : String)
    (hf : s.handler.filters = [])
    (hp : s.handler.processors = [])
    (hr : r.custom_dimensions = none)
    (h₁ : nodupKeys d₁)
    (hq : dictLookup d₁ q = some v) :
    (∀ s0 : AppLoggerState, ∀ reg0 : LoggerRegistry, ∀ n : String, ∀ d : Dict,
      (AppLogger.get_logger s0 reg0 n d).1.handler.filters =
        s0.handler.filters ++ [CustomDimensionsFilter.init (some d)] ∧
      (AppLogger.get_logger s0 reg0 n d).1.handler.processors =
        s0.handler.processors ++ [n]) ∧
    (AppLogger.get_logger (AppLogger.get_logger s reg n₁ d₁).1
        (AppLogger.get_logger s reg n₁ d₁).2 n₂ d₂).1.handler.filters =
      [CustomDimensionsFilter.init (some d₁), CustomDimensionsFilter.init (some d₂)] ∧
    (AppLogger.get_logger (AppLogger.get_logger s reg n₁ d₁).1
        (AppLogger.get_logger s reg n₁ d₁).2 n₂ d₂).1.handler.processors = [n₁, n₂] ∧
    (runFilters (AppLogger.get_logger (AppLogger.get_logger s reg n₁ d₁).1
        (AppLogger.get_logger s reg n₁ d₁).2 n₂ d₂).1.handler.filters r).1 = true ∧
    dictLookup
        (((runFilters (AppLogger.get_logger (AppLogger.get_logger s reg n₁ d₁).1
            (AppLogger.get_logger s reg n₁ d₁).2 n₂ d₂).1.handler.filters r).2).custom_dimensions.getD [])
        q = some v := by
  have hfil : (AppLogger.get_logger (AppLogger.get_logger s reg n₁ d₁).1
      (AppLogger.get_logger s reg n₁ d₁).2 n₂ d₂).1.handler.filters =
      [CustomDimensionsFilter.init (some d₁), CustomDimensionsFilter.init (some d₂)] := by
    rw [get_logger_handler_filters, get_logger_handler_filters, hf]
    rfl
  have hproc : (AppLogger.get_logger (AppLogger.get_logger s reg n₁ d₁).1
      (AppLogger.get_logger s reg n₁ d₁).2 n₂ d₂).1.handler.processors = [n₁, n₂] := by
    rw [get_logger_handler_processors, get_logger_handler_processors, hp]
    rfl
  refine ⟨fun s0 reg0 n d =>
    ⟨get_logger_handler_filters s0 reg0 n d, get_logger_handler_processors s0 reg0 n d⟩,
    hfil, hproc, runFilters_fst _ _, ?_⟩
  rw [hfil, runFilters_cons, runFilters_cons]
  simp only [runFilters, CustomDimensionsFilter.filter, CustomDimensionsFilter.init, hr]
  simp only [Option.getD_none, Option.getD_some, pythonMerge_nil]
  rw [dictLookup_pythonMerge d₂ d₁ q h₁, hq]

/-- C10 witness: two concrete `get_logger` calls (components `"a"` then
`"b"`) accumulate both filters and processors on the shared handler, and a
fresh record run through the handler's filter chain carries `"k": "v"`
from the first call even though the second call supplied `"k": "z"`. -/
theorem C10_shared_handler_accumulates_witness :
    (∀ s0 : AppLoggerState, ∀ reg0 : LoggerRegistry, ∀ n : String, ∀ d : Dict,
      (AppLogger.get_logger s0 reg0 n d).1.handler.filters =
        s0.handler.filters ++ [CustomDimensionsFilter.init (some d)] ∧
      (AppLogger.get_logger s0 reg0 n d).1.handler.processors =
        s0.handler.processors ++ [n]) ∧
    (AppLogger.get_logger (AppLogger.get_logger demoState [] "a" [("k", "v")]).1
        (AppLogger.get_logger demoState [] "a" [("k", "v")]).2 "b"
        [("k", "z"), ("m", "n")]).1.handler.filters =
      [CustomDimensionsFilter.init (some [("k", "v")]),
       CustomDimensionsFilter.init (some [("k", "z"), ("m", "n")])] ∧
    (AppLogger.get_logger (AppLogger.get_logger demoState [] "a" [("k", "v")]).1
        (AppLogger.get_logger demoState [] "a" [("k", "v")]).2 "b"
        [("k", "z"), ("m", "n")]).1.handler.processors = ["a", "b"] ∧
    (runFilters (AppLogger.get_logger (AppLogger.get_logger demoState [] "a" [("k", "v")]).1
        (AppLogger.get_logger demoState [] "a" [("k", "v")]).2 "b"
        [("k", "z"), ("m", "n")]).1.handler.filters
      ({ custom_dimensions := none, rest := (0 : Nat) } : LogRecord Nat)).1 = true ∧
    dictLookup
        (((runFilters (AppLogger.get_logger (AppLogger.get_logger demoState [] "a" [("k", "v")]).1
            (AppLogger.get_logger demoState [] "a" [("k", "v")]).2 "b"
            [("k", "z"), ("m", "n")]).1.handler.filters
          ({ custom_dimensions := none, rest := (0 : Nat) } : LogRecord Nat)).2).custom_dimensions.getD [])
        "k" = some "v" :=
  C10_shared_handler_accumulates demoState [] "a" "b" [("k", "v")]
    [("k", "z"), ("m", "n")] { custom_dimensions := none, rest := (0 : Nat) }
    "k" "v" rfl rfl rfl (by decide) (by decide)

/-- The `AppLogger` state right after `AppLogger(config)` was constructed
with no key in config and the environment variable set to `"key-one"`: the
cache holds the environment value. -/
def c7State : AppLoggerState :=
  { config := defaultConfig, app_insights_key := some "key-one",
    log_level := some 20,
    handler := { name := HANDLER_NAME,
                 connection_string := "InstrumentationKey=key-one",
                 filters := [], processors := [] } }

/-- C7 counterexample: construct the singleton with no key in config while
the environment variable holds `"key-one"`; the first resolution caches
`"key-one"`. A later `get_tracer`, run while the environment variable
holds `"key-two"`, re-runs `update_config` (which resets the cached
attribute to the absent config value) and re-reads the environment: the
operation observes `"key-two"`, not the previously cached `"key-one"` —
the cached credential is discarded and re-derived, refuting the claim. -/
theorem C7_counterexample :
    AppLogger.init vAll
        (some { log_level := none, logging_enabled := none, app_insights_key := none })
        (some "key-one") = .ok c7State ∧
    c7State.app_insights_key = some "key-one" ∧
    AppLogger.get_tracer vAll c7State "AppLogger" none (some "key-two") =
      .ok ({ sampler := .alwaysOn,
             exporter := { connection_string := "InstrumentationKey=key-two",
                           sampler := .probability, processors := ["AppLogger"] },
             span_context := none },
           { config := defaultConfig, app_insights_key := some "key-two",
             log_level := some 20, handler := c7State.handler }) ∧
    ("InstrumentationKey=key-two" ≠ "InstrumentationKey=key-one" ∧
     (some "key-two" : Option String) ≠ some "key-one") := by
  refine ⟨rfl, rfl, ?_, by decide, by decide⟩
  rw [get_tracer_eq]
  rfl

/-- C7 amended: the credential cache survives only through the
configuration. When `app_insights_key` is present in config, every later
`get_tracer` observes exactly that value, whatever the environment holds;
when it is absent, `update_config` (re-run by every operation) resets the
cached attribute and the credential is re-derived from the environment at
the next resolution, so the operation observes the current environment
value rather than a previously cached one. -/
theorem C7_amended_cache_follows_config (validate : String → Except String Unit)
    (s : AppLoggerState) (name : String) (parent : Option Tracer) :
    (∀ k : String, ∀ env : Option String, s.config.app_insights_key = some k →
      validate k = .ok () →
      ∃ t : Tracer, ∃ s' : AppLoggerState,
        AppLogger.get_tracer validate s name parent env = .ok (t, s') ∧
        s'.app_insights_key = some k ∧
        t.exporter.connection_string = "InstrumentationKey=" ++ k) ∧
    (∀ e : String, s.config.app_insights_key = none → validate e = .ok () →
      ∃ t : Tracer, ∃ s' : AppLoggerState,
        AppLogger.get_tracer validate s name parent (some e) = .ok (t, s') ∧
        s'.app_insights_key = some e ∧
        t.exporter.connection_string = "InstrumentationKey=" ++ e) := by
  constructor
  · intro k env hc hv
    rw [get_tracer_eq]
    simp only [AppLogger.get_app_insights_key, hc, hv]
    exact ⟨_, _, rfl, rfl, rfl⟩
  · intro e hc hv
    rw [get_tracer_eq]
    simp only [AppLogger.get_app_insights_key, hc, hv]
    exact ⟨_, _, rfl, rfl, rfl⟩

/-- C7 amended witness: with the key in config, `get_tracer` observes the
config value even under a different environment; with no key in config,
`get_tracer` observes the current environment value. -/
theorem C7_amended_cache_follows_config_witness :
    (∃ t : Tracer, ∃ s' : AppLoggerState,
      AppLogger.get_tracer vAll demoStateKeyed "svc" none (some "fromenv") = .ok (t, s') ∧
      s'.app_insights_key = some "good" ∧
      t.exporter.connection_string = "InstrumentationKey=" ++ "good") ∧
    (∃ t : Tracer, ∃ s' : AppLoggerState,
      AppLogger.get_tracer vAll c7State "svc" none (some "key-two") = .ok (t, s') ∧
      s'.app_insights_key = some "key-two" ∧
      t.exporter.connection_string = "InstrumentationKey=" ++ "key-two") :=
  ⟨(C7_amended_cache_follows_config vAll demoStateKeyed "svc" none).1 "good"
      (some "fromenv") rfl rfl,
   (C7_amended_cache_follows_config vAll c7State "svc" none).2 "key-two" rfl rfl⟩
